import Mathlib

set_option maxHeartbeats 1000000

/-- A unit's status snapshot as returned by the manager's list query:
name, active state and sub state (Go struct systemd.UnitStatus, the
fields this wrapper reads). -/
structure UnitStatus where
  Name : String
  ActiveState : String
  SubState : String
deriving DecidableEq

/-- The service descriptor (Go struct Systemd, minus the logger handle,
which only routes log lines and carries no data). -/
structure Systemd where
  Name : String
  Description : String
  Version : String
  AppID : String
deriving DecidableEq

/-- Observable side effects of one operation, in program order: manager
RPC calls, file-system actions and log lines. -/
inductive Event where
  | connect
  | startUnit (name mode : String)
  | stopUnit (name mode : String)
  | restartUnit (name mode : String)
  | reloadOrRestartUnit (name mode : String)
  | killUnit (name : String) (signal : Int)
  | reloadDaemon
  | listUnitsQ (pattern : String)
  | writeFile (path : String)
  | removeFile (path : String)
  | symlink (origin target : String)
  | readFile (path : String)
  | println (text : String)
  | logInfo (msg : String)
  | logWarn (msg : String)
  | logError (msg : String)
deriving DecidableEq

/-- Deterministic oracle for the outside world: the bus-connection
outcome, per-unit-name RPC-call errors, the job-completion result the
manager sends on the wait channel for a unit, the unit listing per
pattern, and file-system outcomes keyed by path. -/
structure Env where
  connectErr : Option String
  startCallErr : String → Option String
  stopCallErr : String → Option String
  restartCallErr : String → Option String
  reloadCallErr : String → Option String
  jobResult : String → String
  listUnits : String → Except String (List UnitStatus)
  removeErr : String → Option String
  symlinkErr : String → Option String
  writeFileErr : String → Option String
  readFileRes : String → Except String String
  fileExists : String → Bool
  executable : Except String String
  reloadDaemonErr : Option String

/-- Log lines produced after a successful unit call, once the completion
channel delivers the job result v: severity Error when v is the string
"failed", Info otherwise; the two message prefixes come verbatim from
the call site. -/
def jobLog (v : String) (failPre okPre : String) : List Event :=
  if v == "failed" then [Event.logError (failPre ++ v)] else [Event.logInfo (okPre ++ v)]

/-- One iteration of the per-unit loops in Start/Stop/Restart: make the
call; on a call error log a warning and continue; otherwise block on the
completion channel and log the result. -/
def unitCallStep (callErr : Option String) (v : String) (callEv : Event)
    (failPre okPre : String) : List Event :=
  match callErr with
  | some e => [callEv, Event.logWarn e]
  | none => callEv :: jobLog v failPre okPre

namespace Systemd

/-- Go Systemd.UnitFile: path of the unit file, templated form when
multi is set. -/
def UnitFile (s : Systemd) (multi : Bool) : String :=
  if multi then "/etc/systemd/system/" ++ s.Name ++ "@.service"
  else "/etc/systemd/system/" ++ s.Name ++ ".service"

/-- Modelled from the spec: CreateUnit (the unit template renderer of
this repository) is called from Install and the unit verb but its body
is not under src/. Per spec section 4.1 it deterministically renders a
unit definition with description, service and install sections, passes
the extra arguments to the executable, references the instantiation
parameter when multiInstance is set, and has no failure modes. -/
def CreateUnit (multi : Bool) (name desc execPath : String) (args : List String) :
    Except String String :=
  Except.ok
    ("[Unit]\nDescription=" ++ desc ++ " (" ++ name ++ ")\n\n[Service]\nExecStart="
      ++ execPath ++ (args.foldl (fun acc a => acc ++ " " ++ a) (""))
      ++ (if multi then " %i" else "")
      ++ "\n\n[Install]\nWantedBy=multi-user.target\n")

/-- Go Systemd.Status: connect, list units matching Name followed by a
wildcard, and when show is set log one line per unit with severity keyed
on the sub state; the raw list is returned unchanged. -/
def Status (env : Env) (s : Systemd) (showFlag : Bool) :
    List Event × Except String (List UnitStatus) :=
  match env.connectErr with
  | some e => ([Event.connect], Except.error e)
  | none =>
    match env.listUnits (s.Name ++ "*") with
    | Except.error e => ([Event.connect, Event.listUnitsQ (s.Name ++ "*")], Except.error e)
    | Except.ok items =>
      ([Event.connect, Event.listUnitsQ (s.Name ++ "*")]
        ++ (if showFlag then
              items.map (fun item =>
                if item.SubState == "running" then
                  Event.logInfo ("Status name=" ++ item.Name ++ " active="
                    ++ item.ActiveState ++ " sub=" ++ item.SubState)
                else
                  Event.logWarn ("Status name=" ++ item.Name ++ " active="
                    ++ item.ActiveState ++ " sub=" ++ item.SubState))
            else []),
        Except.ok items)

/-- Go Systemd.Start: connect; with a positive count start instances 1
up to num, else with tags one instance per tag (call errors logged as
warnings, loop continues), else the bare name with a fallback to the
default instance, returning the second error when both calls fail. -/
def Start (env : Env) (s : Systemd) (num : Int) (tags : List String) :
    List Event × Option String :=
  match env.connectErr with
  | some e => ([Event.connect], some e)
  | none =>
    if 0 < num then
      (Event.connect :: ((List.range num.toNat).map (· + 1)).flatMap (fun i =>
        unitCallStep (env.startCallErr (s.Name ++ "@" ++ toString i ++ ".service"))
          (env.jobResult (s.Name ++ "@" ++ toString i ++ ".service"))
          (Event.startUnit (s.Name ++ "@" ++ toString i ++ ".service") ("fail"))
          ("Started [ " ++ s.Name ++ "@" ++ toString i ++ ".service" ++ " ] ")
          ("Started [ " ++ s.Name ++ "@" ++ toString i ++ ".service" ++ " ] ")), none)
    else if tags ≠ [] then
      (Event.connect :: tags.flatMap (fun tag =>
        unitCallStep (env.startCallErr (s.Name ++ "@" ++ tag ++ ".service"))
          (env.jobResult (s.Name ++ "@" ++ tag ++ ".service"))
          (Event.startUnit (s.Name ++ "@" ++ tag ++ ".service") ("fail"))
          ("Started [ " ++ s.Name ++ "@" ++ tag ++ ".service" ++ " ] ")
          ("Started [ " ++ s.Name ++ "@" ++ tag ++ ".service" ++ " ] ")), none)
    else
      match env.startCallErr (s.Name ++ ".service") with
      | none =>
        ([Event.connect, Event.startUnit (s.Name ++ ".service") ("fail")]
          ++ jobLog (env.jobResult (s.Name ++ ".service"))
              ("Started [ " ++ s.Name ++ ".service" ++ " ] ")
              ("Started [ " ++ s.Name ++ ".service" ++ " ] "), none)
      | some _ =>
        match env.startCallErr (s.Name ++ "@default.service") with
        | some e2 =>
          ([Event.connect, Event.startUnit (s.Name ++ ".service") ("fail"),
            Event.startUnit (s.Name ++ "@default.service") ("fail")], some e2)
        | none =>
          ([Event.connect, Event.startUnit (s.Name ++ ".service") ("fail"),
            Event.startUnit (s.Name ++ "@default.service") ("fail")]
            ++ jobLog (env.jobResult (s.Name ++ "@default.service"))
                ("Started [ " ++ s.Name ++ "@default.service" ++ " ] ")
                ("Started [ " ++ s.Name ++ "@default.service" ++ " ] "), none)

/-- Go Systemd.Stop: connect; with all enumerate matching units via
Status and stop each (call errors logged, loop continues), else per-tag
instances, else the bare name with the default-instance fallback. -/
def Stop (env : Env) (s : Systemd) (all : Bool) (tags : List String) :
    List Event × Option String :=
  match env.connectErr with
  | some e => ([Event.connect], some e)
  | none =>
    if all then
      match Status env s false with
      | (tr, Except.error e) => (Event.connect :: tr, some e)
      | (tr, Except.ok items) =>
        (Event.connect :: tr ++ items.flatMap (fun item =>
          unitCallStep (env.stopCallErr item.Name) (env.jobResult item.Name)
            (Event.stopUnit item.Name ("fail"))
            ("Stop [ " ++ item.Name ++ "] ") ("Stop [ " ++ item.Name ++ " ] ")), none)
    else if tags ≠ [] then
      (Event.connect :: tags.flatMap (fun tag =>
        unitCallStep (env.stopCallErr (s.Name ++ "@" ++ tag ++ ".service"))
          (env.jobResult (s.Name ++ "@" ++ tag ++ ".service"))
          (Event.stopUnit (s.Name ++ "@" ++ tag ++ ".service") ("fail"))
          ("Stop [" ++ s.Name ++ "@" ++ tag ++ ".service" ++ "] ")
          ("Stop [ " ++ s.Name ++ "@" ++ tag ++ ".service" ++ " ] ")), none)
    else
      match env.stopCallErr (s.Name ++ ".service") with
      | none =>
        ([Event.connect, Event.stopUnit (s.Name ++ ".service") ("fail")]
          ++ jobLog (env.jobResult (s.Name ++ ".service"))
              ("Stop [" ++ s.Name ++ ".service" ++ "] ")
              ("Stop [ " ++ s.Name ++ ".service" ++ " ] "), none)
      | some _ =>
        match env.stopCallErr (s.Name ++ "@default.service") with
        | some e2 =>
          ([Event.connect, Event.stopUnit (s.Name ++ ".service") ("fail"),
            Event.stopUnit (s.Name ++ "@default.service") ("fail")], some e2)
        | none =>
          ([Event.connect, Event.stopUnit (s.Name ++ ".service") ("fail"),
            Event.stopUnit (s.Name ++ "@default.service") ("fail")]
            ++ jobLog (env.jobResult (s.Name ++ "@default.service"))
                ("Stop [" ++ s.Name ++ "@default.service" ++ "] ")
                ("Stop [ " ++ s.Name ++ "@default.service" ++ " ] "), none)

/-- Go Systemd.Remove: log, best-effort Stop with all set (its error is
logged as a warning and swallowed), delete both unit-file paths, and
fail only when neither deletion succeeded. -/
def Remove (env : Env) (s : Systemd) : List Event × Option String :=
  let stopRes := Stop env s true []
  let tr := Event.logInfo ("Removing... " ++ s.Name) :: stopRes.1
    ++ (match stopRes.2 with | some e => [Event.logWarn e] | none => [])
    ++ [Event.removeFile ("/etc/systemd/system/" ++ s.Name ++ ".service"),
        Event.removeFile ("/etc/systemd/system/" ++ s.Name ++ "@.service")]
  if ([env.removeErr ("/etc/systemd/system/" ++ s.Name ++ ".service"),
       env.removeErr ("/etc/systemd/system/" ++ s.Name ++ "@.service")].contains none) = false
  then (tr, some ("remove failed"))
  else (tr ++ [Event.logInfo ("Removed " ++ s.Name)], none)

/-- Go Systemd.Install: log, resolve the executable path, render the
unit text, write the unit file, and only then connect and ask the
manager to reload its unit cache. -/
def Install (env : Env) (s : Systemd) (multi : Bool) (args : List String) :
    List Event × Option String :=
  match env.executable with
  | Except.error e => ([Event.logInfo ("Install... " ++ s.Name)], some e)
  | Except.ok execPath =>
    match CreateUnit multi s.Name s.Description execPath args with
    | Except.error e => ([Event.logInfo ("Install... " ++ s.Name)], some e)
    | Except.ok _buf =>
      match env.writeFileErr (UnitFile s multi) with
      | some e =>
        ([Event.logInfo ("Install... " ++ s.Name), Event.writeFile (UnitFile s multi),
          Event.logError ("Failed to write unit file " ++ UnitFile s multi ++ " " ++ e)],
          some e)
      | none =>
        match env.connectErr with
        | some e =>
          ([Event.logInfo ("Install... " ++ s.Name), Event.writeFile (UnitFile s multi),
            Event.connect], some e)
        | none =>
          ([Event.logInfo ("Install... " ++ s.Name), Event.writeFile (UnitFile s multi),
            Event.connect, Event.logInfo ("Installed " ++ s.Name), Event.reloadDaemon],
            env.reloadDaemonErr)

/-- Go fileExists plus Systemd.Enable: when the templated unit file
exists symlink it into the wants directory once per tag, defaulting to
the single tag "default"; else when the single-instance file exists
symlink that; else fail with a not-installed error. Symlink failures
are logged, never returned. -/
def Enable (env : Env) (s : Systemd) (tags : List String) : List Event × Option String :=
  if env.fileExists ("/etc/systemd/system/" ++ s.Name ++ "@.service") then
    ((if tags = [] then [("default" : String)] else tags).flatMap (fun tag =>
      Event.symlink ("/etc/systemd/system/" ++ s.Name ++ "@.service")
        ("/etc/systemd/system/multi-user.target.wants/" ++ s.Name ++ "@" ++ tag ++ ".service")
      :: (match env.symlinkErr ("/etc/systemd/system/multi-user.target.wants/"
              ++ s.Name ++ "@" ++ tag ++ ".service") with
          | some e => [Event.logError ("Failed to create symlink " ++ e)]
          | none => [Event.logInfo ("Created symlink "
              ++ "/etc/systemd/system/multi-user.target.wants/" ++ s.Name ++ "@" ++ tag
              ++ ".service")])), none)
  else if env.fileExists ("/etc/systemd/system/" ++ s.Name ++ ".service") then
    (Event.symlink ("/etc/systemd/system/" ++ s.Name ++ ".service")
        ("/etc/systemd/system/multi-user.target.wants/" ++ s.Name ++ ".service")
      :: (match env.symlinkErr ("/etc/systemd/system/multi-user.target.wants/"
              ++ s.Name ++ ".service") with
          | some e => [Event.logError ("Failed to create symlink " ++ e)]
          | none => [Event.logInfo ("Created symlink "
              ++ "/etc/systemd/system/multi-user.target.wants/" ++ s.Name ++ ".service")]),
      none)
  else
    ([], some ("service is not installed"))

/-- Go Systemd.Disable: with tags remove the per-tag wants symlinks
(failures logged as errors); otherwise remove both the default-instance
and the bare symlink (failures logged as warnings). Always returns nil. -/
def Disable (env : Env) (s : Systemd) (tags : List String) : List Event × Option String :=
  if tags ≠ [] then
    (tags.flatMap (fun tag =>
      Event.removeFile ("/etc/systemd/system/multi-user.target.wants/"
          ++ s.Name ++ "@" ++ tag ++ ".service")
      :: (match env.removeErr ("/etc/systemd/system/multi-user.target.wants/"
              ++ s.Name ++ "@" ++ tag ++ ".service") with
          | some e => [Event.logError ("Failed to remove symlink " ++ e)]
          | none => [])), none)
  else
    (Event.removeFile ("/etc/systemd/system/multi-user.target.wants/"
        ++ s.Name ++ "@default.service")
      :: (match env.removeErr ("/etc/systemd/system/multi-user.target.wants/"
              ++ s.Name ++ "@default.service") with
          | some e => [Event.logWarn ("Failed to remove symlink " ++ e)]
          | none => [])
      ++ (Event.removeFile ("/etc/systemd/system/multi-user.target.wants/"
            ++ s.Name ++ ".service")
          :: (match env.removeErr ("/etc/systemd/system/multi-user.target.wants/"
                  ++ s.Name ++ ".service") with
              | some e => [Event.logWarn ("Failed to remove symlink " ++ e)]
              | none => [])), none)

/-- Go Systemd.Kill: connect; with all kill every unit returned by
Status, else per-tag instances, else the two hard-coded names the source
builds in the neither branch (the first lacks any separator before
"default.service"); RPC results are discarded. -/
def Kill (env : Env) (s : Systemd) (all : Bool) (tags : List String) :
    List Event × Option String :=
  match env.connectErr with
  | some e => ([Event.connect], some e)
  | none =>
    if all then
      match Status env s false with
      | (tr, Except.error e) => (Event.connect :: tr, some e)
      | (tr, Except.ok items) =>
        (Event.connect :: tr ++ items.map (fun item => Event.killUnit item.Name 9), none)
    else if tags ≠ [] then
      (Event.connect :: tags.map (fun tag =>
        Event.killUnit (s.Name ++ "@" ++ tag ++ ".service") 9), none)
    else
      ([Event.connect, Event.killUnit (s.Name ++ "default.service") 9,
        Event.killUnit (s.Name ++ "@default.service") 9], none)

/-- Go Systemd.Restart: same enumeration as Stop against the restart
primitive, with the Restarted log messages. -/
def Restart (env : Env) (s : Systemd) (all : Bool) (tags : List String) :
    List Event × Option String :=
  match env.connectErr with
  | some e => ([Event.connect], some e)
  | none =>
    if all then
      match Status env s false with
      | (tr, Except.error e) => (Event.connect :: tr, some e)
      | (tr, Except.ok items) =>
        (Event.connect :: tr ++ items.flatMap (fun item =>
          unitCallStep (env.restartCallErr item.Name) (env.jobResult item.Name)
            (Event.restartUnit item.Name ("fail"))
            ("Restarted [ " ++ item.Name ++ "] ") ("Restarted [ " ++ item.Name ++ " ] ")),
          none)
    else if tags ≠ [] then
      (Event.connect :: tags.flatMap (fun tag =>
        unitCallStep (env.restartCallErr (s.Name ++ "@" ++ tag ++ ".service"))
          (env.jobResult (s.Name ++ "@" ++ tag ++ ".service"))
          (Event.restartUnit (s.Name ++ "@" ++ tag ++ ".service") ("fail"))
          ("Restarted [ " ++ s.Name ++ "@" ++ tag ++ ".service" ++ " ] ")
          ("Restarted [ " ++ s.Name ++ "@" ++ tag ++ ".service" ++ " ] ")), none)
    else
      match env.restartCallErr (s.Name ++ ".service") with
      | none =>
        ([Event.connect, Event.restartUnit (s.Name ++ ".service") ("fail")]
          ++ jobLog (env.jobResult (s.Name ++ ".service"))
              ("Restarted [ " ++ s.Name ++ ".service" ++ " ] ")
              ("Restarted [ " ++ s.Name ++ ".service" ++ " ] "), none)
      | some _ =>
        match env.restartCallErr (s.Name ++ "@default.service") with
        | some e2 =>
          ([Event.connect, Event.restartUnit (s.Name ++ ".service") ("fail"),
            Event.restartUnit (s.Name ++ "@default.service") ("fail")], some e2)
        | none =>
          ([Event.connect, Event.restartUnit (s.Name ++ ".service") ("fail"),
            Event.restartUnit (s.Name ++ "@default.service") ("fail")]
            ++ jobLog (env.jobResult (s.Name ++ "@default.service"))
                ("Restarted [ " ++ s.Name ++ "@default.service" ++ " ] ")
                ("Restarted [ " ++ s.Name ++ "@default.service" ++ " ] "), none)

/-- The all-branch loop of Go Systemd.Reload: unlike its siblings, a
per-unit call error returns immediately, abandoning the rest. -/
def reloadAll (env : Env) : List UnitStatus → List Event × Option String
  | [] => ([], none)
  | item :: rest =>
    match env.reloadCallErr item.Name with
    | some e => ([Event.reloadOrRestartUnit item.Name ("fail")], some e)
    | none =>
      let ev := Event.reloadOrRestartUnit item.Name ("fail")
        :: jobLog (env.jobResult item.Name)
            ("Reloaded [ " ++ item.Name ++ "] ") ("Reloaded [ " ++ item.Name ++ " ] ")
      let r := reloadAll env rest
      (ev ++ r.1, r.2)

/-- One iteration of Go Systemd.Reload's tags loop: a call error is
logged as a warning, and because the source lacks a continue here, the
loop still falls through to the completion-channel read. -/
def reloadTagStep (env : Env) (name : String) : List Event :=
  Event.reloadOrRestartUnit name ("fail")
    :: (match env.reloadCallErr name with | some e => [Event.logWarn e] | none => [])
    ++ jobLog (env.jobResult name)
        ("Reloaded [ " ++ name ++ " ] ") ("Reloaded [ " ++ name ++ " ] ")

/-- Go Systemd.Reload: log, connect; with all enumerate units via
Status and reload-or-restart each, aborting on the first call error;
with tags one instance per tag with warnings on call errors; else the
bare name with the default-instance fallback. -/
def Reload (env : Env) (s : Systemd) (all : Bool) (tags : List String) :
    List Event × Option String :=
  match env.connectErr with
  | some e => ([Event.logInfo ("Reloading... " ++ s.Name), Event.connect], some e)
  | none =>
    if all then
      match Status env s false with
      | (tr, Except.error e) =>
        (Event.logInfo ("Reloading... " ++ s.Name) :: Event.connect :: tr, some e)
      | (tr, Except.ok items) =>
        let r := reloadAll env items
        (Event.logInfo ("Reloading... " ++ s.Name) :: Event.connect :: tr ++ r.1, r.2)
    else if tags ≠ [] then
      (Event.logInfo ("Reloading... " ++ s.Name) :: Event.connect
        :: tags.flatMap (fun tag => reloadTagStep env (s.Name ++ "@" ++ tag ++ ".service")),
        none)
    else
      match env.reloadCallErr (s.Name ++ ".service") with
      | none =>
        (Event.logInfo ("Reloading... " ++ s.Name)
          :: Event.connect :: Event.reloadOrRestartUnit (s.Name ++ ".service") ("fail")
          :: jobLog (env.jobResult (s.Name ++ ".service"))
              ("Reloaded [ " ++ s.Name ++ ".service" ++ " ] ")
              ("Reloaded [ " ++ s.Name ++ ".service" ++ " ] "), none)
      | some _ =>
        match env.reloadCallErr (s.Name ++ "@default.service") with
        | some e2 =>
          ([Event.logInfo ("Reloading... " ++ s.Name), Event.connect,
            Event.reloadOrRestartUnit (s.Name ++ ".service") ("fail"),
            Event.reloadOrRestartUnit (s.Name ++ "@default.service") ("fail")], some e2)
        | none =>
          (Event.logInfo ("Reloading... " ++ s.Name)
            :: Event.connect :: Event.reloadOrRestartUnit (s.Name ++ ".service") ("fail")
            :: Event.reloadOrRestartUnit (s.Name ++ "@default.service") ("fail")
            :: jobLog (env.jobResult (s.Name ++ "@default.service"))
                ("Reloaded [ " ++ s.Name ++ "@default.service" ++ " ] ")
                ("Reloaded [ " ++ s.Name ++ "@default.service" ++ " ] "), none)

end Systemd

/-- A user record as returned by the current-user lookup; the Go code
reads only the Uid and Gid strings. -/
structure User where
  Uid : String
  Gid : String
deriving DecidableEq

/-- The shared PersistentPreRunE closure of Systemd.Command: look up the
current user (lookup failure is returned as-is) and pass exactly when
the group id or the user id is the string "0", else fail with the fixed
root-privileges error. Result none means the check passed. -/
def persistentPreRunE (u : Except String User) : Option String :=
  match u with
  | Except.error e => some e
  | Except.ok usr =>
    if usr.Gid == "0" || usr.Uid == "0" then none
    else some ("root privileges required")

/-- The verbs Systemd.Command registers on the root command. -/
inductive Verb where
  | install | remove | start | stop | enable | disable | restart | kill | reload
  | status | unit
deriving DecidableEq

/-- The flag and argument values a cobra invocation hands each RunE
body: the multi, all and template booleans, the num count and the
positional arguments. -/
structure Flags where
  multi : Bool
  all : Bool
  template : Bool
  num : Int
  args : List String
deriving DecidableEq

/-- The RunE body of the hidden unit verb: with the template flag,
render and print the unit text; otherwise log the unit-file path, read
it and print it, surfacing the read error. -/
def unitBody (env : Env) (s : Systemd) (fl : Flags) : List Event × Option String :=
  if fl.template then
    match env.executable with
    | Except.error e => ([], some e)
    | Except.ok execPath =>
      match Systemd.CreateUnit fl.multi s.Name s.Description execPath fl.args with
      | Except.error e => ([], some e)
      | Except.ok buf => ([Event.println buf], none)
  else
    match env.readFileRes (Systemd.UnitFile s fl.multi) with
    | Except.error e =>
      ([Event.logInfo ("filepath = " ++ Systemd.UnitFile s fl.multi),
        Event.readFile (Systemd.UnitFile s fl.multi)], some e)
    | Except.ok buf =>
      ([Event.logInfo ("filepath = " ++ Systemd.UnitFile s fl.multi),
        Event.readFile (Systemd.UnitFile s fl.multi), Event.println buf], none)

/-- Execution of one registered verb: cobra runs the command's
PersistentPreRunE first and aborts with its error before the RunE body
when it fails; Systemd.Command sets persistentPreRunE on every verb,
each body dispatching to the library call with its flags. -/
def execVerb (env : Env) (u : Except String User) (s : Systemd) (v : Verb)
    (fl : Flags) : List Event × Option String :=
  match persistentPreRunE u with
  | some e => ([], some e)
  | none =>
    match v with
    | Verb.install => Systemd.Install env s fl.multi fl.args
    | Verb.remove => Systemd.Remove env s
    | Verb.start => Systemd.Start env s fl.num fl.args
    | Verb.stop => Systemd.Stop env s fl.all fl.args
    | Verb.enable => Systemd.Enable env s fl.args
    | Verb.disable => Systemd.Disable env s fl.args
    | Verb.restart => Systemd.Restart env s fl.all fl.args
    | Verb.kill => Systemd.Kill env s fl.all fl.args
    | Verb.reload => Systemd.Reload env s fl.all fl.args
    | Verb.status =>
      match Systemd.Status env s true with
      | (tr, Except.error e) => (tr, some e)
      | (tr, Except.ok _) => (tr, none)
    | Verb.unit => unitBody env s fl

/-- Unit names of the start calls in a trace, in order. -/
def startCallNames (tr : List Event) : List String :=
  tr.filterMap (fun e => match e with | Event.startUnit n _ => some n | _ => none)

/-- Unit names of the kill calls in a trace, in order. -/
def killTargets (tr : List Event) : List String :=
  tr.filterMap (fun e => match e with | Event.killUnit n _ => some n | _ => none)

/-- Targets of the symlink creations attempted in a trace, in order. -/
def symlinkTargets (tr : List Event) : List String :=
  tr.filterMap (fun e => match e with | Event.symlink _ t => some t | _ => none)

/-- Paths of the file removals attempted in a trace, in order. -/
def removeTargets (tr : List Event) : List String :=
  tr.filterMap (fun e => match e with | Event.removeFile p => some p | _ => none)

/-- The log lines of a trace, every severity. -/
def logLines (tr : List Event) : List Event :=
  tr.filter (fun e => match e with
    | Event.logInfo _ | Event.logWarn _ | Event.logError _ => true
    | _ => false)

/-- Whether an event mutates the system (an RPC that changes unit state
or a file-system write), as opposed to logging, connecting or querying. -/
def Event.isMutating : Event → Bool
  | Event.startUnit _ _ | Event.stopUnit _ _ | Event.restartUnit _ _
  | Event.reloadOrRestartUnit _ _ | Event.killUnit _ _ | Event.reloadDaemon
  | Event.writeFile _ | Event.removeFile _ | Event.symlink _ _ => true
  | _ => false

/-- A concrete service descriptor used to evaluate the model. -/
def appS : Systemd :=
  { Name := "app", Description := "demo", Version := "1.0", AppID := "com.app" }

/-- A fully healthy world: every call and file action succeeds, jobs
complete with the result "done". -/
def envOk : Env :=
  { connectErr := none
    startCallErr := fun _ => none
    stopCallErr := fun _ => none
    restartCallErr := fun _ => none
    reloadCallErr := fun _ => none
    jobResult := fun _ => "done"
    listUnits := fun _ => Except.ok []
    removeErr := fun _ => none
    symlinkErr := fun _ => none
    writeFileErr := fun _ => none
    readFileRes := fun _ => Except.ok "unit-text"
    fileExists := fun _ => true
    executable := Except.ok "/usr/bin/app"
    reloadDaemonErr := none }

/-- A world whose bus connection fails with the error "no bus". -/
def envNoBus : Env := { envOk with connectErr := some "no bus" }

/-- A world where the manager rejects both the bare-name call and the
default-instance call of every lifecycle primitive. -/
def envBothRejected : Env :=
  { envOk with
    startCallErr := fun n =>
      if n = "app.service" then some "bare rejected"
      else if n = "app@default.service" then some "default rejected" else none
    reloadCallErr := fun n =>
      if n = "app.service" then some "bare rejected"
      else if n = "app@default.service" then some "default rejected" else none }

/-- A world where the completion channel reports the result "failed"
for every job. -/
def envJobFailed : Env := { envOk with jobResult := fun _ => "failed" }

/-- A world with two units visible to the pattern query: one running,
one dead. -/
def envTwoUnits : Env :=
  { envOk with
    listUnits := fun _ => Except.ok
      [{ Name := "app@1.service", ActiveState := "active", SubState := "running" },
       { Name := "app@2.service", ActiveState := "inactive", SubState := "dead" }] }

/-- A world where only the templated unit file exists. -/
def envTemplated : Env :=
  { envOk with fileExists := fun p => p = "/etc/systemd/system/app@.service" }

/-- A world where only the single-instance unit file exists. -/
def envSingle : Env :=
  { envOk with fileExists := fun p => p = "/etc/systemd/system/app.service" }

/-- A world where no unit file exists and every file removal fails. -/
def envNothing : Env :=
  { envOk with fileExists := fun _ => false, removeErr := fun _ => some "ENOENT" }

/-- A world where removing the single-instance unit file fails but
removing the templated one succeeds. -/
def envHalfRemovable : Env :=
  { envOk with removeErr := fun p =>
      if p = "/etc/systemd/system/app.service" then some "ENOENT" else none }

/-- A non-root, non-group-0 user. -/
def alice : User := { Uid := "1000", Gid := "1000" }

/-- A user in group 0 whose uid is not 0. -/
def operatorUser : User := { Uid := "1000", Gid := "0" }

theorem filterMap_flatMap_singleton {α β γ : Type} (f : β → Option γ) (g : α → List β)
    (p : α → γ) (l : List α) (h : ∀ a, (g a).filterMap f = [p a]) :
    (l.flatMap g).filterMap f = l.map p := by
  induction l with
  | nil => simp
  | cons a t ih => simp [List.flatMap_cons, List.filterMap_append, h, ih]

theorem startCallNames_unitCallStep (ce : Option String) (v n m fp op : String) :
    startCallNames (unitCallStep ce v (Event.startUnit n m) fp op) = [n] := by
  cases ce <;> cases hv : (v == "failed") <;>
    simp [unitCallStep, jobLog, hv, startCallNames]

theorem reloadAll_snd (env : Env) (items : List UnitStatus) :
    (Systemd.reloadAll env items).2 = items.findSome? (fun it => env.reloadCallErr it.Name) := by
  induction items with
  | nil => simp [Systemd.reloadAll]
  | cons a t ih =>
    cases h : env.reloadCallErr a.Name <;>
      simp [Systemd.reloadAll, h, List.findSome?_cons, ih]

theorem remove_snd_char (env : Env) (s : Systemd) :
    (Systemd.Remove env s).2 =
      if env.removeErr ("/etc/systemd/system/" ++ s.Name ++ ".service") = none
          ∨ env.removeErr ("/etc/systemd/system/" ++ s.Name ++ "@.service") = none
      then none else some ("remove failed") := by
  rcases h1 : env.removeErr ("/etc/systemd/system/" ++ s.Name ++ ".service") with _ | e1 <;>
    rcases h2 : env.removeErr ("/etc/systemd/system/" ++ s.Name ++ "@.service") with _ | e2 <;>
      simp [Systemd.Remove, h1, h2, List.contains]

theorem enable_no_connect (env : Env) (s : Systemd) (tags : List String) :
    Event.connect ∉ (Systemd.Enable env s tags).1 := by
  cases h1 : env.fileExists ("/etc/systemd/system/" ++ s.Name ++ "@.service") with
  | true =>
    simp only [Systemd.Enable, h1, if_true, List.mem_flatMap]
    rintro ⟨tag, _, hmem⟩
    cases h : env.symlinkErr ("/etc/systemd/system/multi-user.target.wants/"
        ++ s.Name ++ "@" ++ tag ++ ".service") <;> simp [h] at hmem
  | false =>
    cases h2 : env.fileExists ("/etc/systemd/system/" ++ s.Name ++ ".service") with
    | true =>
      simp only [Systemd.Enable, h1, h2]
      cases h : env.symlinkErr ("/etc/systemd/system/multi-user.target.wants/"
          ++ s.Name ++ ".service") <;> simp [h]
    | false => simp [Systemd.Enable, h1, h2]

theorem disable_no_connect (env : Env) (s : Systemd) (tags : List String) :
    Event.connect ∉ (Systemd.Disable env s tags).1 := by
  by_cases ht : tags = []
  · subst ht
    simp only [Systemd.Disable]
    cases ha : env.removeErr ("/etc/systemd/system/multi-user.target.wants/"
        ++ s.Name ++ "@default.service") <;>
      cases hb : env.removeErr ("/etc/systemd/system/multi-user.target.wants/"
          ++ s.Name ++ ".service") <;> simp [ha, hb]
  · simp only [Systemd.Disable, ht, if_true, ne_eq, not_false_eq_true, List.mem_flatMap]
    rintro ⟨tag, _, hmem⟩
    cases h : env.removeErr ("/etc/systemd/system/multi-user.target.wants/"
        ++ s.Name ++ "@" ++ tag ++ ".service") <;> simp [h] at hmem

/-- C1: the spec invariant says every lifecycle operation invoked with
neither tags nor a count/all flag targets the bare service name with an
at-default fallback, and per-tag instance names when tags are given.
The code's Kill neither-branch instead unconditionally targets the
malformed name built by appending "default.service" directly to the
service name with no separator, followed by the at-default instance;
the bare name is never targeted. Evaluated at the failing input (Kill
with all unset and no tags, service name "app"). -/
theorem kill_no_tags_malformed :
    killTargets (Systemd.Kill envOk appS false []).1
      = [("appdefault.service" : String), ("app@default.service" : String)]
    ∧ ("app.service" : String) ∉ killTargets (Systemd.Kill envOk appS false []).1 := by
  decide

/-- C2 counterexample: with the manager rejecting both the bare-name and
the at-default reload calls, Reload invoked with neither tags nor the
all flag (the "neither" branch) returns the second call's error instead
of logging a warning and returning nil, and no warning is logged at
all. This falsifies the claim that a call error in the neither branch
is logged as a warning and does not become the return value. -/
theorem reload_neither_returns_error :
    (Systemd.Reload envBothRejected appS false []).2 = some ("default rejected")
    ∧ ((logLines (Systemd.Reload envBothRejected appS false []).1).all
        (fun e => match e with | Event.logWarn _ => false | _ => true)) = true := by
  decide

/-- C2 (amended): in Reload, a per-unit call error in the tags branch is
logged as a warning and does not become the return value; in the all
branch the first per-unit call error is returned immediately without
processing the remaining units; in the neither branch a bare-name call
error triggers a fallback call on the at-default instance with no
warning logged, and the operation returns the fallback's error exactly
when both calls fail. -/
theorem reload_error_policy (env : Env) (s : Systemd) (tags : List String)
    (items : List UnitStatus) (e1 e2 : String)
    (hconn : env.connectErr = none) :
    (tags ≠ [] → (Systemd.Reload env s false tags).2 = none)
    ∧ (env.listUnits (s.Name ++ "*") = Except.ok items →
        (Systemd.Reload env s true tags).2
          = items.findSome? (fun it => env.reloadCallErr it.Name))
    ∧ (∀ it rest, env.reloadCallErr it.Name = some e1 →
        Systemd.reloadAll env (it :: rest)
          = ([Event.reloadOrRestartUnit it.Name ("fail")], some e1))
    ∧ (env.reloadCallErr (s.Name ++ ".service") = some e1 →
        env.reloadCallErr (s.Name ++ "@default.service") = some e2 →
        (Systemd.Reload env s false []).2 = some e2)
    ∧ (env.reloadCallErr (s.Name ++ ".service") = some e1 →
        env.reloadCallErr (s.Name ++ "@default.service") = none →
        (Systemd.Reload env s false []).2 = none) := by
  refine ⟨?_, ?_, ?_, ?_, ?_⟩
  · intro ht
    simp [Systemd.Reload, hconn, ht]
  · intro hlist
    simp [Systemd.Reload, Systemd.Status, hconn, hlist, reloadAll_snd]
  · intro it rest h
    simp [Systemd.reloadAll, h]
  · intro h1 h2
    simp [Systemd.Reload, hconn, h1, h2]
  · intro h1 h2
    simp [Systemd.Reload, hconn, h1, h2]

/-- C2 witness: the amended tags-branch clause evaluated at a concrete
world where the per-tag call fails. -/
theorem reload_error_policy_witness :
    (Systemd.Reload envBothRejected appS false [("default" : String)]).2 = none :=
  (reload_error_policy envBothRejected appS [("default" : String)] [] ("x") ("y") rfl).1
    (by decide)

/-- C3 counterexample: Install in a world whose bus connection fails
still performs a mutating side effect before connecting — the unit file
write is in its trace — while returning the connection error. This
falsifies the claim that every operation connects before any other side
effect and aborts with no side effect on connection failure. -/
theorem install_side_effect_before_connect :
    (Systemd.Install envNoBus appS false []).2 = some ("no bus")
    ∧ Event.writeFile ("/etc/systemd/system/app.service")
        ∈ (Systemd.Install envNoBus appS false []).1
    ∧ (Event.writeFile ("/etc/systemd/system/app.service")).isMutating = true := by
  decide

/-- C3 (amended): the manager-RPC operations Start, Stop, Kill, Restart,
Reload and Status connect before any mutating side effect and, on
connection failure, return that error unmodified with no mutating event
in their trace. Install, however, renders and writes the unit file
before connecting, so on connection failure the write has already
happened even though the error is still returned unmodified. Remove
never connects on its own (only its internal best-effort Stop does, and
that error is swallowed: Remove's result depends only on the two
deletions), and Enable and Disable never connect at all. -/
theorem connect_failure_policy (env : Env) (s : Systemd) (e p : String) (num : Int)
    (allFlag multi showFlag : Bool) (tags args : List String)
    (hconn : env.connectErr = some e)
    (hexe : env.executable = Except.ok p)
    (hwrite : env.writeFileErr (Systemd.UnitFile s multi) = none) :
    ((Systemd.Start env s num tags).2 = some e
      ∧ ((Systemd.Start env s num tags).1.all (fun ev => !ev.isMutating)) = true)
    ∧ ((Systemd.Stop env s allFlag tags).2 = some e
      ∧ ((Systemd.Stop env s allFlag tags).1.all (fun ev => !ev.isMutating)) = true)
    ∧ ((Systemd.Kill env s allFlag tags).2 = some e
      ∧ ((Systemd.Kill env s allFlag tags).1.all (fun ev => !ev.isMutating)) = true)
    ∧ ((Systemd.Restart env s allFlag tags).2 = some e
      ∧ ((Systemd.Restart env s allFlag tags).1.all (fun ev => !ev.isMutating)) = true)
    ∧ ((Systemd.Reload env s allFlag tags).2 = some e
      ∧ ((Systemd.Reload env s allFlag tags).1.all (fun ev => !ev.isMutating)) = true)
    ∧ ((Systemd.Status env s showFlag).2 = Except.error e
      ∧ ((Systemd.Status env s showFlag).1.all (fun ev => !ev.isMutating)) = true)
    ∧ ((Systemd.Install env s multi args).2 = some e
      ∧ Event.writeFile (Systemd.UnitFile s multi) ∈ (Systemd.Install env s multi args).1)
    ∧ ((Systemd.Remove env s).2 =
        if env.removeErr ("/etc/systemd/system/" ++ s.Name ++ ".service") = none
            ∨ env.removeErr ("/etc/systemd/system/" ++ s.Name ++ "@.service") = none
        then none else some ("remove failed"))
    ∧ Event.connect ∉ (Systemd.Enable env s tags).1
    ∧ Event.connect ∉ (Systemd.Disable env s tags).1 := by
  refine ⟨?_, ?_, ?_, ?_, ?_, ?_, ?_, ?_, ?_, ?_⟩
  · exact ⟨by simp [Systemd.Start, hconn], by simp [Systemd.Start, hconn, Event.isMutating]⟩
  · exact ⟨by simp [Systemd.Stop, hconn], by simp [Systemd.Stop, hconn, Event.isMutating]⟩
  · exact ⟨by simp [Systemd.Kill, hconn], by simp [Systemd.Kill, hconn, Event.isMutating]⟩
  · exact ⟨by simp [Systemd.Restart, hconn],
      by simp [Systemd.Restart, hconn, Event.isMutating]⟩
  · exact ⟨by simp [Systemd.Reload, hconn],
      by simp [Systemd.Reload, hconn, Event.isMutating]⟩
  · exact ⟨by simp [Systemd.Status, hconn],
      by simp [Systemd.Status, hconn, Event.isMutating]⟩
  · exact ⟨by simp [Systemd.Install, hexe, hwrite, hconn, Systemd.CreateUnit],
      by simp [Systemd.Install, hexe, hwrite, hconn, Systemd.CreateUnit]⟩
  · exact remove_snd_char env s
  · exact enable_no_connect env s tags
  · exact disable_no_connect env s tags

/-- C3 witness: the amended Stop clause evaluated at a concrete world
whose connection fails. -/
theorem connect_failure_policy_witness :
    (Systemd.Stop envNoBus appS true []).2 = some ("no bus") :=
  (connect_failure_policy envNoBus appS ("no bus") ("/usr/bin/app") 0 true false false
    [] [] rfl rfl rfl).2.1.1

/-- C4: Remove attempts deletion of both the single-instance and the
templated unit-file paths, and returns nil exactly when at least one of
the two deletions succeeded; both deletions failing is the only error
case, so a partial success is not an error. -/
theorem remove_ok_iff_one_deletion (env : Env) (s : Systemd) :
    Event.removeFile ("/etc/systemd/system/" ++ s.Name ++ ".service")
        ∈ (Systemd.Remove env s).1
    ∧ Event.removeFile ("/etc/systemd/system/" ++ s.Name ++ "@.service")
        ∈ (Systemd.Remove env s).1
    ∧ ((Systemd.Remove env s).2 = none ↔
        (env.removeErr ("/etc/systemd/system/" ++ s.Name ++ ".service") = none
          ∨ env.removeErr ("/etc/systemd/system/" ++ s.Name ++ "@.service") = none)) := by
  refine ⟨?_, ?_, ?_⟩
  · simp only [Systemd.Remove]
    split <;> simp
  · simp only [Systemd.Remove]
    split <;> simp
  · rw [remove_snd_char]
    by_cases h : (env.removeErr ("/etc/systemd/system/" ++ s.Name ++ ".service") = none
        ∨ env.removeErr ("/etc/systemd/system/" ++ s.Name ++ "@.service") = none) <;>
      simp [h]

/-- C4 witness: at a world where deleting the single-instance path fails
and deleting the templated path succeeds, Remove returns nil. -/
theorem remove_ok_iff_one_deletion_witness :
    (Systemd.Remove envHalfRemovable appS).2 = none :=
  (remove_ok_iff_one_deletion envHalfRemovable appS).2.2.mpr (by decide)

/-- C5: for every positive count num, Start with a healthy connection
attempts exactly num start calls, one for each instance name built from
the indices 1 up to num, in increasing numeric order. -/
theorem start_count_instances (env : Env) (s : Systemd) (num : Int) (tags : List String)
    (hconn : env.connectErr = none) (hnum : 0 < num) :
    startCallNames (Systemd.Start env s num tags).1
      = (List.range num.toNat).map (fun i => s.Name ++ "@" ++ toString (i + 1) ++ ".service")
    ∧ (startCallNames (Systemd.Start env s num tags).1).length = num.toNat := by
  have hmain : startCallNames (Systemd.Start env s num tags).1
      = (List.range num.toNat).map
          (fun i => s.Name ++ "@" ++ toString (i + 1) ++ ".service") := by
    have hstep : ∀ i : ℕ,
        List.filterMap (fun e => match e with | Event.startUnit n _ => some n | _ => none)
          (unitCallStep (env.startCallErr (s.Name ++ "@" ++ toString i ++ ".service"))
            (env.jobResult (s.Name ++ "@" ++ toString i ++ ".service"))
            (Event.startUnit (s.Name ++ "@" ++ toString i ++ ".service") ("fail"))
            ("Started [ " ++ s.Name ++ "@" ++ toString i ++ ".service" ++ " ] ")
            ("Started [ " ++ s.Name ++ "@" ++ toString i ++ ".service" ++ " ] "))
          = [s.Name ++ "@" ++ toString i ++ ".service"] :=
      fun i => startCallNames_unitCallStep _ _ _ _ _ _
    simp only [Systemd.Start, hconn, hnum, if_true, if_pos]
    rw [show startCallNames = fun tr => tr.filterMap
      (fun e => match e with | Event.startUnit n _ => some n | _ => none) from rfl]
    simp only [List.filterMap_cons]
    rw [filterMap_flatMap_singleton _ _
      (fun i => s.Name ++ "@" ++ toString i ++ ".service") _ hstep, List.map_map]
    rfl
  exact ⟨hmain, by rw [hmain]; simp⟩

/-- C5 witness: num set to 3 yields exactly the three instance names 1,
2, 3 in that order. -/
theorem start_count_instances_witness :
    (0 : Int) < 3
    ∧ startCallNames (Systemd.Start envOk appS 3 []).1
        = [("app@1.service" : String), ("app@2.service" : String),
           ("app@3.service" : String)] := by
  refine ⟨by decide, ?_⟩
  exact ((start_count_instances envOk appS 3 [] rfl (by decide)).1).trans (by decide)

/-- C6: a "failed" job-completion result is logged as an error and any
other result as informational success, and the return value of Start is
entirely independent of the completion results; with a healthy
connection Start returns nil in the count and tags branches and in the
neither branch unless both the bare-name call and the at-default
fallback call are rejected, in which case it returns the fallback's
error; a failing connection returns that error. -/
theorem start_error_policy (env : Env) (s : Systemd) (num : Int) (tags : List String) :
    (∀ e, env.connectErr = some e → (Systemd.Start env s num tags).2 = some e)
    ∧ (env.connectErr = none → (0 < num ∨ tags ≠ []) →
        (Systemd.Start env s num tags).2 = none)
    ∧ (env.connectErr = none → num ≤ 0 → tags = [] →
        (env.startCallErr (s.Name ++ ".service") = none
          ∨ env.startCallErr (s.Name ++ "@default.service") = none) →
        (Systemd.Start env s num tags).2 = none)
    ∧ (∀ e1 e2, env.connectErr = none → num ≤ 0 → tags = [] →
        env.startCallErr (s.Name ++ ".service") = some e1 →
        env.startCallErr (s.Name ++ "@default.service") = some e2 →
        (Systemd.Start env s num tags).2 = some e2)
    ∧ (∀ f : String → String,
        (Systemd.Start { env with jobResult := f } s num tags).2
          = (Systemd.Start env s num tags).2)
    ∧ (∀ v fp op, v = "failed" → jobLog v fp op = [Event.logError (fp ++ v)])
    ∧ (∀ v fp op, v ≠ "failed" → jobLog v fp op = [Event.logInfo (op ++ v)]) := by
  have hnotlt : ∀ n : Int, n ≤ 0 → ¬(0 < n) := fun n h => not_lt.mpr h
  refine ⟨?_, ?_, ?_, ?_, ?_, ?_, ?_⟩
  · intro e hconn
    simp [Systemd.Start, hconn]
  · intro hconn hbranch
    by_cases hn : 0 < num
    · simp [Systemd.Start, hconn, hn]
    · have ht : tags ≠ [] := by
        rcases hbranch with h | h
        · exact absurd h hn
        · exact h
      simp [Systemd.Start, hconn, hn, ht]
  · intro hconn hle ht hok
    subst ht
    rcases hok with h | h
    · simp [Systemd.Start, hconn, hnotlt num hle, h]
    · cases h1 : env.startCallErr (s.Name ++ ".service") <;>
        simp [Systemd.Start, hconn, hnotlt num hle, h1, h]
  · intro e1 e2 hconn hle ht h1 h2
    subst ht
    simp [Systemd.Start, hconn, hnotlt num hle, h1, h2]
  · intro f
    cases hconn : env.connectErr with
    | some e => simp [Systemd.Start, hconn]
    | none =>
      by_cases hn : 0 < num
      · simp [Systemd.Start, hconn, hn]
      · by_cases ht : tags = []
        · subst ht
          cases h1 : env.startCallErr (s.Name ++ ".service") <;>
            cases h2 : env.startCallErr (s.Name ++ "@default.service") <;>
              simp [Systemd.Start, hconn, hn, h1, h2]
        · simp [Systemd.Start, hconn, hn, ht]
  · intro v fp op hv
    simp [jobLog, hv]
  · intro v fp op hv
    simp [jobLog, hv]

/-- C6 witness: with both the bare-name and fallback calls rejected and
every job reporting "failed", Start still returns the second rejection
error and never an error caused by a completion result. -/
theorem start_error_policy_witness :
    (Systemd.Start envBothRejected appS 0 []).2 = some ("default rejected") :=
  (start_error_policy envBothRejected appS 0 []).2.2.2.1 ("bare rejected")
    ("default rejected") rfl (by decide) rfl (by decide) (by decide)

/-- C7: when the templated unit file exists Enable symlinks it once per
tag, with exactly one symlink for the tag "default" when no tags are
given, and returns nil whatever the symlink outcomes; otherwise, when
the single-instance unit file exists, it creates one symlink for the
bare name and returns nil; otherwise it returns the not-installed
error and attempts no symlink. -/
theorem enable_branches (env : Env) (s : Systemd) (tags : List String) :
    (env.fileExists ("/etc/systemd/system/" ++ s.Name ++ "@.service") = true →
      (Systemd.Enable env s tags).2 = none
      ∧ symlinkTargets (Systemd.Enable env s tags).1
          = (if tags = [] then [("default" : String)] else tags).map
              (fun tag => "/etc/systemd/system/multi-user.target.wants/"
                ++ s.Name ++ "@" ++ tag ++ ".service"))
    ∧ (env.fileExists ("/etc/systemd/system/" ++ s.Name ++ "@.service") = false →
       env.fileExists ("/etc/systemd/system/" ++ s.Name ++ ".service") = true →
      (Systemd.Enable env s tags).2 = none
      ∧ symlinkTargets (Systemd.Enable env s tags).1
          = ["/etc/systemd/system/multi-user.target.wants/" ++ s.Name ++ ".service"])
    ∧ (env.fileExists ("/etc/systemd/system/" ++ s.Name ++ "@.service") = false →
       env.fileExists ("/etc/systemd/system/" ++ s.Name ++ ".service") = false →
      (Systemd.Enable env s tags).2 = some ("service is not installed")
      ∧ symlinkTargets (Systemd.Enable env s tags).1 = []) := by
  refine ⟨?_, ?_, ?_⟩
  · intro h1
    have hstep : ∀ tag : String,
        List.filterMap (fun e => match e with | Event.symlink _ t => some t | _ => none)
          (Event.symlink ("/etc/systemd/system/" ++ s.Name ++ "@.service")
              ("/etc/systemd/system/multi-user.target.wants/"
                ++ s.Name ++ "@" ++ tag ++ ".service")
            :: (match env.symlinkErr ("/etc/systemd/system/multi-user.target.wants/"
                  ++ s.Name ++ "@" ++ tag ++ ".service") with
                | some e => [Event.logError ("Failed to create symlink " ++ e)]
                | none => [Event.logInfo ("Created symlink "
                    ++ "/etc/systemd/system/multi-user.target.wants/" ++ s.Name ++ "@"
                    ++ tag ++ ".service")]))
          = ["/etc/systemd/system/multi-user.target.wants/"
              ++ s.Name ++ "@" ++ tag ++ ".service"] := by
      intro tag
      cases h : env.symlinkErr ("/etc/systemd/system/multi-user.target.wants/"
          ++ s.Name ++ "@" ++ tag ++ ".service") <;> simp [h]
    refine ⟨by simp [Systemd.Enable, h1], ?_⟩
    simp only [Systemd.Enable, h1, if_true]
    rw [show symlinkTargets = fun tr => tr.filterMap
      (fun e => match e with | Event.symlink _ t => some t | _ => none) from rfl]
    exact filterMap_flatMap_singleton _ _
      (fun tag => "/etc/systemd/system/multi-user.target.wants/"
        ++ s.Name ++ "@" ++ tag ++ ".service") _ hstep
  · intro h1 h2
    refine ⟨by simp [Systemd.Enable, h1, h2], ?_⟩
    simp only [Systemd.Enable, h1, h2]
    cases h : env.symlinkErr ("/etc/systemd/system/multi-user.target.wants/"
        ++ s.Name ++ ".service") <;> simp [symlinkTargets, h]
  · intro h1 h2
    exact ⟨by simp [Systemd.Enable, h1, h2], by simp [Systemd.Enable, h1, h2, symlinkTargets]⟩

/-- C7 witness: Enable with no tags and only the templated unit file
present creates exactly the one default-tag symlink and returns nil. -/
theorem enable_branches_witness :
    (Systemd.Enable envTemplated appS []).2 = none
    ∧ symlinkTargets (Systemd.Enable envTemplated appS []).1
        = [("/etc/systemd/system/multi-user.target.wants/app@default.service" : String)] := by
  have h := (enable_branches envTemplated appS []).1 (by decide)
  exact ⟨h.1, h.2.trans (by decide)⟩

/-- C8: Disable always returns nil; with no tags it attempts exactly the
two removals of the default-tag instance symlink and the bare symlink in
the wants directory, in that order and regardless of which paths exist,
and with tags it attempts exactly one removal per tag. -/
theorem disable_always_two_removals (env : Env) (s : Systemd) (tags : List String) :
    (Systemd.Disable env s tags).2 = none
    ∧ removeTargets (Systemd.Disable env s tags).1
        = (if tags = [] then
            ["/etc/systemd/system/multi-user.target.wants/" ++ s.Name ++ "@default.service",
             "/etc/systemd/system/multi-user.target.wants/" ++ s.Name ++ ".service"]
           else tags.map (fun tag => "/etc/systemd/system/multi-user.target.wants/"
             ++ s.Name ++ "@" ++ tag ++ ".service")) := by
  by_cases ht : tags = []
  · subst ht
    refine ⟨by simp [Systemd.Disable], ?_⟩
    simp only [Systemd.Disable, if_true]
    cases ha : env.removeErr ("/etc/systemd/system/multi-user.target.wants/"
        ++ s.Name ++ "@default.service") <;>
      cases hb : env.removeErr ("/etc/systemd/system/multi-user.target.wants/"
          ++ s.Name ++ ".service") <;> simp [removeTargets, ha, hb]
  · have hstep : ∀ tag : String,
        List.filterMap (fun e => match e with | Event.removeFile p => some p | _ => none)
          (Event.removeFile ("/etc/systemd/system/multi-user.target.wants/"
              ++ s.Name ++ "@" ++ tag ++ ".service")
            :: (match env.removeErr ("/etc/systemd/system/multi-user.target.wants/"
                  ++ s.Name ++ "@" ++ tag ++ ".service") with
                | some e => [Event.logError ("Failed to remove symlink " ++ e)]
                | none => []))
          = ["/etc/systemd/system/multi-user.target.wants/"
              ++ s.Name ++ "@" ++ tag ++ ".service"] := by
      intro tag
      cases h : env.removeErr ("/etc/systemd/system/multi-user.target.wants/"
          ++ s.Name ++ "@" ++ tag ++ ".service") <;> simp [h]
    refine ⟨by simp [Systemd.Disable, ht], ?_⟩
    simp only [Systemd.Disable, ht, ne_eq, not_false_eq_true, if_true, if_neg]
    rw [show removeTargets = fun tr => tr.filterMap
      (fun e => match e with | Event.removeFile p => some p | _ => none) from rfl]
    exact filterMap_flatMap_singleton _ _
      (fun tag => "/etc/systemd/system/multi-user.target.wants/"
        ++ s.Name ++ "@" ++ tag ++ ".service") _ hstep

/-- C9: with the connection and the pattern query for the service name
followed by a wildcard succeeding, Status with show unset emits no log
line, Status with show set emits exactly one log line per returned
unit — informational when that unit's sub state equals "running",
warning otherwise — and in both cases returns the queried unit list
unchanged. -/
theorem status_logging (env : Env) (s : Systemd) (items : List UnitStatus)
    (hconn : env.connectErr = none)
    (hlist : env.listUnits (s.Name ++ "*") = Except.ok items) :
    ((Systemd.Status env s false).2 = Except.ok items
      ∧ logLines (Systemd.Status env s false).1 = [])
    ∧ ((Systemd.Status env s true).2 = Except.ok items
      ∧ logLines (Systemd.Status env s true).1
          = items.map (fun item =>
              if item.SubState == "running" then
                Event.logInfo ("Status name=" ++ item.Name ++ " active="
                  ++ item.ActiveState ++ " sub=" ++ item.SubState)
              else
                Event.logWarn ("Status name=" ++ item.Name ++ " active="
                  ++ item.ActiveState ++ " sub=" ++ item.SubState))) := by
  refine ⟨⟨by simp [Systemd.Status, hconn, hlist], ?_⟩,
    ⟨by simp [Systemd.Status, hconn, hlist], ?_⟩⟩
  · simp [Systemd.Status, hconn, hlist, logLines]
  · simp only [Systemd.Status, hconn, hlist, if_true]
    rw [show logLines = fun tr => tr.filter (fun e => match e with
      | Event.logInfo _ | Event.logWarn _ | Event.logError _ => true
      | _ => false) from rfl]
    simp only [List.filter_append, List.filter_cons, List.filter_nil]
    rw [List.filter_eq_self.mpr]
    · simp
    · intro e he
      rcases List.mem_map.mp he with ⟨item, _, rfl⟩
      cases h : (item.SubState == "running") <;> simp [h]

/-- C9 witness: a world with one running and one dead unit yields one
informational and one warning line and returns both units. -/
theorem status_logging_witness :
    (Systemd.Status envTwoUnits appS true).2 = Except.ok
      [{ Name := "app@1.service", ActiveState := "active", SubState := "running" },
       { Name := "app@2.service", ActiveState := "inactive", SubState := "dead" }]
    ∧ logLines (Systemd.Status envTwoUnits appS true).1
        = [Event.logInfo ("Status name=app@1.service active=active sub=running"),
           Event.logWarn ("Status name=app@2.service active=inactive sub=dead")] := by
  have h := (status_logging envTwoUnits appS
    [{ Name := "app@1.service", ActiveState := "active", SubState := "running" },
     { Name := "app@2.service", ActiveState := "inactive", SubState := "dead" }]
    rfl rfl).2
  exact ⟨h.1, h.2.trans (by decide)⟩

/-- C10: the shared privilege pre-check passes exactly when the looked-up
user's Uid is "0" or Gid is "0" (group-0 membership suffices without
being user root), fails with the fixed root-privileges error otherwise,
and on any pre-check failure every verb — the non-mutating status and
unit verbs included — produces no events and returns that error, so the
subcommand body does not run. -/
theorem privilege_precheck (env : Env) (s : Systemd) (fl : Flags) (usr : User)
    (u : Except String User) (e : String) :
    (persistentPreRunE (Except.ok usr) = none ↔ (usr.Uid = "0" ∨ usr.Gid = "0"))
    ∧ (usr.Uid ≠ "0" → usr.Gid ≠ "0" →
        persistentPreRunE (Except.ok usr) = some ("root privileges required"))
    ∧ (∀ v : Verb, persistentPreRunE u = some e →
        execVerb env u s v fl = ([], some e)) := by
  refine ⟨?_, ?_, ?_⟩
  · by_cases h1 : usr.Gid = "0" <;> by_cases h2 : usr.Uid = "0" <;>
      simp [persistentPreRunE, h1, h2]
  · intro h1 h2
    simp [persistentPreRunE, h1, h2]
  · intro v h
    simp [execVerb, h]

/-- C10 witness: a user with uid and gid both "1000" running the status
verb is rejected with the fixed error and the body does not run, while
a user whose gid alone is "0" passes the pre-check. -/
theorem privilege_precheck_witness :
    execVerb envOk (Except.ok alice) appS Verb.status
        { multi := false, all := false, template := false, num := 0, args := [] }
      = ([], some ("root privileges required"))
    ∧ persistentPreRunE (Except.ok operatorUser) = none := by
  have h := privilege_precheck envOk appS
    { multi := false, all := false, template := false, num := 0, args := [] }
    alice (Except.ok alice) ("root privileges required")
  exact ⟨h.2.2 Verb.status (h.2.1 (by decide) (by decide)),
    (privilege_precheck envOk appS
      { multi := false, all := false, template := false, num := 0, args := [] }
      operatorUser (Except.ok operatorUser) ("root privileges required")).1.mpr
        (Or.inr rfl)⟩
